import Mathlib

/-! # node-keytar (macOS backend and async workers): a verification development

Shallow embedding of `src/keytar_mac.cc` (the keychain backend) and
`src/async.cc` (the Nan workers).  Output parameters (`std::string* error`,
`std::string* password`, `std::vector<Credentials>* credentials`) are passed in
and returned; the keychain is explicit state threaded through every native call.
The Security framework itself is outside the repository: the backend is embedded
over an arbitrary `Keychain σ` (any native behaviour whatsoever), and
`keychainStore` is the store the specification describes.
-/

namespace keytar

/-! ## Result taxonomy and native status codes -/

/-- Outcome enumeration of `keytar.h`, as used by every backend operation. -/
inductive KEYTAR_OP_RESULT where
  | SUCCESS
  | FAIL_ERROR
  | FAIL_NONFATAL
  deriving DecidableEq, Repr

open KEYTAR_OP_RESULT

/-- Native status `OSStatus` (a signed 32-bit integer in the Security framework). -/
abbrev OSStatus := Int

/-- Status `errSecSuccess` of `Security.h`. -/
def errSecSuccess : OSStatus := 0

/-- Status `errSecDuplicateItem` of `Security.h`. -/
def errSecDuplicateItem : OSStatus := -25299

/-- Status `errSecItemNotFound` of `Security.h`. -/
def errSecItemNotFound : OSStatus := -25300

/-- Status `errSecInvalidItemRef` of `Security.h`. -/
def errSecInvalidItemRef : OSStatus := -25304

/-! ## C strings and CoreFoundation strings -/

/-- The NUL-terminated reading of a character buffer: what `std::string(const char*)`
and `std::string::c_str()` consumers see, namely the characters before the first NUL. -/
def cstr (s : String) : String :=
  String.mk (s.data.takeWhile (fun c => c ≠ Char.ofNat 0))

/-- Number of UTF-16 code units of a character. -/
def utf16Units (c : Char) : Nat :=
  if c.toNat < 0x10000 then 1 else 2

/-- Number of UTF-8 bytes of a character. -/
def utf8Bytes (c : Char) : Nat :=
  if c.toNat < 0x80 then 1
  else if c.toNat < 0x800 then 2
  else if c.toNat < 0x10000 then 3
  else 4

/-- A CoreFoundation string: its characters, and whether CoreFoundation can hand out
a direct pointer to a UTF-8 C string for it (`CFStringGetCStringPtr` may return NULL
for any string). -/
structure CFString where
  chars : String
  hasCStringPtr : Bool
  deriving DecidableEq, Repr

/-- CoreFoundation `CFStringGetCStringPtr(s, kCFStringEncodingUTF8)`: the buffer, or NULL. -/
def CFStringGetCStringPtr (s : CFString) : Option String :=
  if s.hasCStringPtr then some s.chars else none

/-- CoreFoundation `CFStringGetLength`: the number of UTF-16 code units. -/
def CFStringGetLength (s : CFString) : Nat :=
  (s.chars.data.map utf16Units).sum

/-- CoreFoundation `CFStringGetCString(s, buffer, bufferSize, kCFStringEncodingUTF8)`:
succeeds, filling the buffer, exactly when the UTF-8 bytes and the terminating NUL
fit in `bufferSize`; otherwise it reports failure. -/
def CFStringGetCString (s : CFString) (bufferSize : Nat) : Option String :=
  if (s.chars.data.map utf8Bytes).sum + 1 ≤ bufferSize then some s.chars else none

/-- Source `CFStringToStdString` (keytar_mac.cc:15-40). -/
def CFStringToStdString (cfstring : CFString) : String :=
  match CFStringGetCStringPtr cfstring with
  | some cstrPtr => cstr cstrPtr
  | none =>
    let length := CFStringGetLength cfstring
    -- Worst case: 2 bytes per character + NUL
    let cstrPtrLen := length * 2 + 1
    match CFStringGetCString cfstring cstrPtrLen with
    | some buffer => cstr buffer
    | none => ""

/-! ## The native keychain interface -/

/-- Handle `SecKeychainItemRef` to a keychain item. -/
abbrev SecKeychainItemRef := Nat

/-- Attribute dictionary of one match of `SecItemCopyMatching`.  Server and account are
always present; path, security domain, port and protocol each may be absent.
The port is the `int` that `CFNumberGetValue(port, kCFNumberIntType, ·)` yields. -/
structure KeychainItem where
  server : CFString
  account : CFString
  path : Option CFString
  securityDomain : Option CFString
  port : Option Int
  protocol : Option CFString
  deriving DecidableEq, Repr

/-- Output parameters of `SecKeychainFindInternetPassword`: the password bytes
(`passwordLength`, `passwordData`) and the item reference. -/
structure FindOutput where
  passwordData : String
  itemRef : SecKeychainItemRef
  deriving DecidableEq, Repr

/-- The Security framework calls the backend makes, over an arbitrary keychain state `σ`.
No behaviour is assumed: each call may return any status and change the state in any way.
The account of `SecKeychainFindInternetPassword` is `none` when the caller passes
`(0, NULL)` and `some account` when it passes `(account.length(), account.data())`. -/
structure Keychain (σ : Type) where
  SecKeychainAddInternetPassword : σ → String → String → String → OSStatus × σ
  SecKeychainFindInternetPassword : σ → String → Option String → OSStatus × FindOutput × σ
  SecKeychainItemDelete : σ → SecKeychainItemRef → OSStatus × σ
  SecItemCopyMatching : σ → String → OSStatus × List KeychainItem × σ
  SecCopyErrorMessageString : OSStatus → CFString

/-! ## The backend: `keytar_mac.cc` -/

/-- Result of an operation whose only output parameter is `error`. -/
structure OpOut (σ : Type) where
  result : KEYTAR_OP_RESULT
  error : String
  state : σ

/-- Result of an operation with output parameters `password` and `error`. -/
structure PasswordOut (σ : Type) where
  result : KEYTAR_OP_RESULT
  password : String
  error : String
  state : σ

/-- Type `Credentials` of credentials.h: (server, account, settings). -/
abbrev Credentials := String × String × List (String × String)

/-- Result of `FindCredentials`, with output parameters `credentials` and `error`. -/
structure CredentialsOut (σ : Type) where
  result : KEYTAR_OP_RESULT
  credentials : List Credentials
  error : String
  state : σ

variable {σ : Type}

/-- Source `errorStatusToString` (keytar_mac.cc:42-56). -/
def errorStatusToString (K : Keychain σ) (status : OSStatus) : String :=
  let errorMessageString := K.SecCopyErrorMessageString status
  match CFStringGetCStringPtr errorMessageString with
  | some errorCStringPtr => cstr errorCStringPtr
  | none => "An unknown error occurred."

/-- Source `AddPassword` (keytar_mac.cc:58-87). -/
def AddPassword (K : Keychain σ) (st : σ) (service account password : String)
    (error : String) (returnNonfatalOnDuplicate : Bool) : OpOut σ :=
  let r := K.SecKeychainAddInternetPassword st service account password
  let status := r.1
  if status = errSecDuplicateItem ∧ returnNonfatalOnDuplicate = true then
    ⟨FAIL_NONFATAL, error, r.2⟩
  else if status ≠ errSecSuccess then
    ⟨FAIL_ERROR, errorStatusToString K status, r.2⟩
  else
    ⟨SUCCESS, error, r.2⟩

/-- Source `GetPassword` (keytar_mac.cc:109-141). -/
def GetPassword (K : Keychain σ) (st : σ) (service account : String)
    (password error : String) : PasswordOut σ :=
  let r := K.SecKeychainFindInternetPassword st service (some account)
  let status := r.1
  if status = errSecItemNotFound then
    ⟨FAIL_NONFATAL, password, error, r.2.2⟩
  else if status ≠ errSecSuccess then
    ⟨FAIL_ERROR, password, errorStatusToString K status, r.2.2⟩
  else
    ⟨SUCCESS, r.2.1.passwordData, error, r.2.2⟩

/-- Source `DeletePassword` (keytar_mac.cc:143-178). -/
def DeletePassword (K : Keychain σ) (st : σ) (service account : String)
    (error : String) : OpOut σ :=
  let r := K.SecKeychainFindInternetPassword st service (some account)
  let status := r.1
  if status = errSecItemNotFound then
    -- Item could not be found, so already deleted.
    ⟨FAIL_NONFATAL, error, r.2.2⟩
  else if status ≠ errSecSuccess then
    ⟨FAIL_ERROR, errorStatusToString K status, r.2.2⟩
  else
    let d := K.SecKeychainItemDelete r.2.2 r.2.1.itemRef
    let status := d.1
    if status ≠ errSecSuccess then
      ⟨FAIL_ERROR, errorStatusToString K status, d.2⟩
    else
      ⟨SUCCESS, error, d.2⟩

/-- Source `SetPassword` (keytar_mac.cc:89-107). -/
def SetPassword (K : Keychain σ) (st : σ) (service account password : String)
    (error : String) : OpOut σ :=
  let r := AddPassword K st service account password error true
  if r.result = FAIL_NONFATAL then
    -- This password already exists, delete it and try again.
    let d := DeletePassword K r.state service account r.error
    if d.result = FAIL_ERROR then
      ⟨FAIL_ERROR, d.error, d.state⟩
    else
      AddPassword K d.state service account password d.error false
  else if r.result = FAIL_ERROR then
    ⟨FAIL_ERROR, r.error, r.state⟩
  else
    ⟨SUCCESS, r.error, r.state⟩

/-- Source `FindPassword` (keytar_mac.cc:180-213). -/
def FindPassword (K : Keychain σ) (st : σ) (service : String)
    (password error : String) : PasswordOut σ :=
  let r := K.SecKeychainFindInternetPassword st service none
  let status := r.1
  if status = errSecItemNotFound then
    ⟨FAIL_NONFATAL, password, error, r.2.2⟩
  else if status ≠ errSecSuccess then
    ⟨FAIL_ERROR, password, errorStatusToString K status, r.2.2⟩
  else
    ⟨SUCCESS, r.2.1.passwordData, error, r.2.2⟩

/-- Body of the enumeration loop of `FindCredentials` (keytar_mac.cc:242-277) for one
match: the settings are pushed in the order path, domain, port, protocol. -/
def itemToCredentials (item : KeychainItem) : Credentials :=
  let settings : List (String × String) := []
  let settings := match item.path with
    | some path => settings ++ [("path", CFStringToStdString path)]
    | none => settings
  let settings := match item.securityDomain with
    | some domain => settings ++ [("domain", CFStringToStdString domain)]
    | none => settings
  let settings := match item.port with
    | some port => settings ++ [("port", toString port)]
    | none => settings
  let settings := match item.protocol with
    | some protocol => settings ++ [("protocol", CFStringToStdString protocol)]
    | none => settings
  (CFStringToStdString item.server, CFStringToStdString item.account, settings)

/-- Source `FindCredentials` (keytar_mac.cc:215-294).  The query's server is
`CFStringCreateWithCString(service.c_str())`. -/
def FindCredentials (K : Keychain σ) (st : σ) (service : String)
    (credentials : List Credentials) (error : String) : CredentialsOut σ :=
  let r := K.SecItemCopyMatching st (cstr service)
  let status := r.1
  if status = errSecSuccess then
    let resultArray := r.2.1
    let credentials := resultArray.foldl
      (fun creds item => creds ++ [itemToCredentials item]) credentials
    ⟨SUCCESS, credentials, error, r.2.2⟩
  else if status = errSecItemNotFound then
    ⟨FAIL_NONFATAL, credentials, error, r.2.2⟩
  else
    ⟨FAIL_ERROR, credentials, errorStatusToString K status, r.2.2⟩

/-! ## The secret store of the specification -/

/-- One internet-password entry held by the store. -/
structure StoreEntry where
  server : String
  account : String
  password : String
  path : Option String
  securityDomain : Option String
  port : Option Int
  protocol : Option String
  deriving DecidableEq, Repr

/-- The (service, account) pair that identifies an entry. -/
def StoreEntry.key (e : StoreEntry) : String × String := (e.server, e.account)

/-- Modelled from the spec: the OS-native secret store behind the Security framework
calls, which is not part of the repository.  Section 3: "a (service, account) pair
identifies at most one live secret in the store at any instant (the OS store enforces
this)".  Entries are kept in the order the store produces them. -/
structure Store where
  entries : List StoreEntry
  nodup : (entries.map StoreEntry.key).Nodup

/-- The entry a successful add creates: no path, security domain, port or protocol. -/
def newEntry (service account password : String) : StoreEntry :=
  { server := service, account := account, password := password,
    path := none, securityDomain := none, port := none, protocol := none }

/-- Whether an entry matches a find query: the server must equal the service, and the
account too when the query names one. -/
def matchesQuery (service : String) (account : Option String) (e : StoreEntry) : Bool :=
  decide (e.server = service) &&
    (match account with
     | none => true
     | some a => decide (e.account = a))

/-- Modelled from the spec: adding inserts a new secret, and reports a duplicate when an
entry already exists for (service, account) (section 4.1, AddSecret). -/
def Store.add (s : Store) (service account password : String) : OSStatus × Store :=
  if h : (service, account) ∈ s.entries.map StoreEntry.key then
    (errSecDuplicateItem, s)
  else
    (errSecSuccess,
      ⟨s.entries ++ [newEntry service account password], by
        rw [List.map_append, List.nodup_append]
        refine ⟨s.nodup, List.nodup_singleton _, ?_⟩
        intro k hk hk2
        rw [List.map_singleton, List.mem_singleton] at hk2
        subst hk2
        exact h hk⟩)

/-- Modelled from the spec: a lookup yields the first matching entry the store produces,
with a reference to it, or reports that no item was found (section 4.1, GetSecret "looks
up an exact (service, account) match", FindSecretByService "account unconstrained").
A named account is matched exactly, the empty one included: the specification leaves
the native treatment of empty identifiers open (section 9). -/
def Store.find (s : Store) (service : String) (account : Option String) :
    OSStatus × FindOutput × Store :=
  match s.entries.find? (matchesQuery service account) with
  | none => (errSecItemNotFound, ⟨"", 0⟩, s)
  | some e => (errSecSuccess, ⟨e.password, s.entries.findIdx (matchesQuery service account)⟩, s)

/-- Modelled from the spec: deleting a referenced item removes that entry (section 4.1,
DeleteSecret); a reference to no entry is refused. -/
def Store.delete (s : Store) (item : SecKeychainItemRef) : OSStatus × Store :=
  if item < s.entries.length then
    (errSecSuccess,
      ⟨s.entries.eraseIdx item,
        List.Nodup.sublist ((List.eraseIdx_sublist s.entries item).map StoreEntry.key) s.nodup⟩)
  else
    (errSecInvalidItemRef, s)

/-- A CoreFoundation string made from stored characters; CoreFoundation hands out a
direct C-string pointer only for strings it stores as 8-bit ASCII. -/
def CFString.ofString (s : String) : CFString :=
  ⟨s, s.data.all (fun c => decide (c.toNat < 0x80))⟩

/-- The attribute dictionary an enumeration reports for an entry. -/
def StoreEntry.toItem (e : StoreEntry) : KeychainItem :=
  { server := CFString.ofString e.server,
    account := CFString.ofString e.account,
    path := e.path.map CFString.ofString,
    securityDomain := e.securityDomain.map CFString.ofString,
    port := e.port,
    protocol := e.protocol.map CFString.ofString }

/-- Modelled from the spec: enumeration yields every entry of the service, in the
store's order, and reports that no item was found when there is none (section 4.2). -/
def Store.copyMatching (s : Store) (server : String) : OSStatus × List KeychainItem × Store :=
  let found := s.entries.filter (fun e => decide (e.server = server))
  if found = [] then (errSecItemNotFound, [], s)
  else (errSecSuccess, found.map StoreEntry.toItem, s)

/-- Message text of the store for a status code. -/
def Store.errorMessage (status : OSStatus) : CFString :=
  if status = errSecDuplicateItem then
    ⟨"The specified item already exists in the keychain.", true⟩
  else if status = errSecItemNotFound then
    ⟨"The specified item could not be found in the keychain.", true⟩
  else
    ⟨"OSStatus " ++ toString status, true⟩

/-- The store of the specification as a keychain. -/
def keychainStore : Keychain Store where
  SecKeychainAddInternetPassword := Store.add
  SecKeychainFindInternetPassword := Store.find
  SecKeychainItemDelete := Store.delete
  SecItemCopyMatching := Store.copyMatching
  SecCopyErrorMessageString := Store.errorMessage

/-- The empty store. -/
def Store.empty : Store := ⟨[], List.nodup_nil⟩

/-! ## The async workers: `async.cc` over Nan's `AsyncWorker` -/

/-- The JavaScript values the workers hand to the completion callback. -/
inductive JSValue where
  | null
  | boolean (b : Bool)
  | string (s : String)
  | array (elements : List JSValue)
  | object (properties : List (String × JSValue))
  | error (message : String)

/-- Property write `obj->Set(key, value)`: an existing property is overwritten in place,
a new one is appended. -/
def JSValue.setProperty (properties : List (String × JSValue)) (key : String) (value : JSValue) :
    List (String × JSValue) :=
  if properties.any (fun kv => decide (kv.1 = key)) then
    properties.map (fun kv => if kv.1 = key then (key, value) else kv)
  else
    properties ++ [(key, value)]

/-- The backend operation a worker wraps. -/
inductive Operation where
  | SetPassword
  | GetPassword
  | DeletePassword
  | FindPassword
  | FindCredentials
  deriving DecidableEq, Repr

/-- What a task is observed to do: its backend call returning, and each
`callback->Call(argc, argv)` with the argument vector passed. -/
inductive Event where
  | backendReturned (op : Operation) (result : KEYTAR_OP_RESULT)
  | callbackCalled (argv : List JSValue)

/-- Nan `AsyncWorker::HandleErrorCallback`: the callback receives one argument, an
`Error` carrying the stored message. -/
def HandleErrorCallback (errmsg : String) : List Event :=
  [Event.callbackCalled [JSValue.error errmsg]]

/-- Nan `AsyncWorker::HandleOKCallback`, the default a worker inherits when it does not
override it: the callback is called with no arguments. -/
def defaultHandleOKCallback : List Event :=
  [Event.callbackCalled []]

/-- Nan `AsyncWorker::WorkComplete`: with no error message set the OK handler runs,
otherwise the error handler. -/
def WorkComplete (errmsg : Option String) (handleOK : List Event) : List Event :=
  match errmsg with
  | none => handleOK
  | some msg => HandleErrorCallback msg

/-- Worker `SetPasswordWorker` (async.cc:12-35); `errmsg` is Nan's `errmsg_`. -/
structure SetPasswordWorker where
  service : String
  account : String
  password : String
  errmsg : Option String

/-- Worker `GetPasswordWorker` (async.cc:39-79). -/
structure GetPasswordWorker where
  service : String
  account : String
  password : String
  success : Bool
  errmsg : Option String

/-- Worker `DeletePasswordWorker` (async.cc:83-117). -/
structure DeletePasswordWorker where
  service : String
  account : String
  success : Bool
  errmsg : Option String

/-- Worker `FindPasswordWorker` (async.cc:121-158). -/
structure FindPasswordWorker where
  service : String
  password : String
  success : Bool
  errmsg : Option String

/-- Worker `FindCredentialsWorker` (async.cc:162-242). -/
structure FindCredentialsWorker where
  service : String
  credentials : List Credentials
  success : Bool
  errmsg : Option String

/-- Constructor of `SetPasswordWorker` (async.cc:12-21). -/
def SetPasswordWorker.create (service account password : String) : SetPasswordWorker :=
  { service := service, account := account, password := password, errmsg := none }

/-- Constructor of `GetPasswordWorker` (async.cc:39-46): `password` starts empty, and
`success` is not initialised, so it starts at whatever value `success0` is. -/
def GetPasswordWorker.create (service account : String) (success0 : Bool) : GetPasswordWorker :=
  { service := service, account := account, password := "", success := success0, errmsg := none }

/-- Constructor of `DeletePasswordWorker` (async.cc:83-90). -/
def DeletePasswordWorker.create (service account : String) (success0 : Bool) :
    DeletePasswordWorker :=
  { service := service, account := account, success := success0, errmsg := none }

/-- Constructor of `FindPasswordWorker` (async.cc:121-126). -/
def FindPasswordWorker.create (service : String) (success0 : Bool) : FindPasswordWorker :=
  { service := service, password := "", success := success0, errmsg := none }

/-- Constructor of `FindCredentialsWorker` (async.cc:162-167). -/
def FindCredentialsWorker.create (service : String) (success0 : Bool) : FindCredentialsWorker :=
  { service := service, credentials := [], success := success0, errmsg := none }

/-- Source `SetPasswordWorker::Execute` (async.cc:26-35). -/
def SetPasswordWorker.Execute (K : Keychain σ) (st : σ) (w : SetPasswordWorker) :
    SetPasswordWorker × σ × List Event :=
  let error := ""
  let o := SetPassword K st w.service w.account w.password error
  let log := [Event.backendReturned Operation.SetPassword o.result]
  if o.result = FAIL_ERROR then
    ({ w with errmsg := some (cstr o.error) }, o.state, log)
  else
    (w, o.state, log)

/-- Source `GetPasswordWorker::Execute` (async.cc:51-64). -/
def GetPasswordWorker.Execute (K : Keychain σ) (st : σ) (w : GetPasswordWorker) :
    GetPasswordWorker × σ × List Event :=
  let error := ""
  let o := GetPassword K st w.service w.account w.password error
  let log := [Event.backendReturned Operation.GetPassword o.result]
  let w := { w with password := o.password }
  if o.result = FAIL_ERROR then
    ({ w with errmsg := some (cstr o.error) }, o.state, log)
  else if o.result = FAIL_NONFATAL then
    ({ w with success := false }, o.state, log)
  else
    ({ w with success := true }, o.state, log)

/-- Source `GetPasswordWorker::HandleOKCallback` (async.cc:66-79). -/
def GetPasswordWorker.HandleOKCallback (w : GetPasswordWorker) : List Event :=
  let val := JSValue.null
  let val := if w.success then JSValue.string w.password else val
  [Event.callbackCalled [JSValue.null, val]]

/-- Source `DeletePasswordWorker::Execute` (async.cc:95-105). -/
def DeletePasswordWorker.Execute (K : Keychain σ) (st : σ) (w : DeletePasswordWorker) :
    DeletePasswordWorker × σ × List Event :=
  let error := ""
  let o := DeletePassword K st w.service w.account error
  let log := [Event.backendReturned Operation.DeletePassword o.result]
  if o.result = FAIL_ERROR then
    ({ w with errmsg := some (cstr o.error) }, o.state, log)
  else if o.result = FAIL_NONFATAL then
    ({ w with success := false }, o.state, log)
  else
    ({ w with success := true }, o.state, log)

/-- Source `DeletePasswordWorker::HandleOKCallback` (async.cc:107-117). -/
def DeletePasswordWorker.HandleOKCallback (w : DeletePasswordWorker) : List Event :=
  let val := JSValue.boolean w.success
  [Event.callbackCalled [JSValue.null, val]]

/-- Source `FindPasswordWorker::Execute` (async.cc:131-143). -/
def FindPasswordWorker.Execute (K : Keychain σ) (st : σ) (w : FindPasswordWorker) :
    FindPasswordWorker × σ × List Event :=
  let error := ""
  let o := FindPassword K st w.service w.password error
  let log := [Event.backendReturned Operation.FindPassword o.result]
  let w := { w with password := o.password }
  if o.result = FAIL_ERROR then
    ({ w with errmsg := some (cstr o.error) }, o.state, log)
  else if o.result = FAIL_NONFATAL then
    ({ w with success := false }, o.state, log)
  else
    ({ w with success := true }, o.state, log)

/-- Source `FindPasswordWorker::HandleOKCallback` (async.cc:145-158). -/
def FindPasswordWorker.HandleOKCallback (w : FindPasswordWorker) : List Event :=
  let val := JSValue.null
  let val := if w.success then JSValue.string w.password else val
  [Event.callbackCalled [JSValue.null, val]]

/-- Source `FindCredentialsWorker::Execute` (async.cc:172-184). -/
def FindCredentialsWorker.Execute (K : Keychain σ) (st : σ) (w : FindCredentialsWorker) :
    FindCredentialsWorker × σ × List Event :=
  let error := ""
  let o := FindCredentials K st w.service w.credentials error
  let log := [Event.backendReturned Operation.FindCredentials o.result]
  let w := { w with credentials := o.credentials }
  if o.result = FAIL_ERROR then
    ({ w with errmsg := some (cstr o.error) }, o.state, log)
  else if o.result = FAIL_NONFATAL then
    ({ w with success := false }, o.state, log)
  else
    ({ w with success := true }, o.state, log)

/-- The inner loop of `FindCredentialsWorker::HandleOKCallback` (async.cc:212-224): every
setting is written into `settingObj` as a string property, in vector order. -/
def settingsToProperties (settingsVector : List (String × String)) : List (String × JSValue) :=
  settingsVector.foldl
    (fun props setting => JSValue.setProperty props setting.1 (JSValue.string setting.2)) []

/-- The object built for one credential in `FindCredentialsWorker::HandleOKCallback`
(async.cc:195-225): `server`, `account`, then `settings`. -/
def credentialsToObject (cred : Credentials) : JSValue :=
  let obj : List (String × JSValue) := []
  let server := JSValue.string cred.1
  let account := JSValue.string cred.2.1
  let obj := JSValue.setProperty obj "server" server
  let obj := JSValue.setProperty obj "account" account
  let settingObj := settingsToProperties cred.2.2
  let obj := JSValue.setProperty obj "settings" (JSValue.object settingObj)
  JSValue.object obj

/-- Source `FindCredentialsWorker::HandleOKCallback` (async.cc:186-242).  The array is
filled at the indices 0, 1, ... in iteration order; the debugging output written to
`std::cout` is not part of the completion and is left out. -/
def FindCredentialsWorker.HandleOKCallback (w : FindCredentialsWorker) : List Event :=
  if w.success then
    let val := w.credentials.foldl (fun arr cred => arr ++ [credentialsToObject cred]) []
    [Event.callbackCalled [JSValue.null, JSValue.array val]]
  else
    [Event.callbackCalled [JSValue.null, JSValue.array []]]

/-- A scheduled task: one worker of one of the five kinds. -/
inductive Task where
  | setPassword (w : SetPasswordWorker)
  | getPassword (w : GetPasswordWorker)
  | deletePassword (w : DeletePasswordWorker)
  | findPassword (w : FindPasswordWorker)
  | findCredentials (w : FindCredentialsWorker)

/-- The backend operation of a task. -/
def Task.operation : Task → Operation
  | .setPassword _ => Operation.SetPassword
  | .getPassword _ => Operation.GetPassword
  | .deletePassword _ => Operation.DeletePassword
  | .findPassword _ => Operation.FindPassword
  | .findCredentials _ => Operation.FindCredentials

/-- Running one task: `Execute`, then Nan's `WorkComplete` with the worker's OK handler.
Yields the events in the order they happen and the keychain state left behind. -/
def Task.run (K : Keychain σ) (st : σ) : Task → List Event × σ
  | .setPassword w =>
    let r := w.Execute K st
    (r.2.2 ++ WorkComplete r.1.errmsg defaultHandleOKCallback, r.2.1)
  | .getPassword w =>
    let r := w.Execute K st
    (r.2.2 ++ WorkComplete r.1.errmsg r.1.HandleOKCallback, r.2.1)
  | .deletePassword w =>
    let r := w.Execute K st
    (r.2.2 ++ WorkComplete r.1.errmsg r.1.HandleOKCallback, r.2.1)
  | .findPassword w =>
    let r := w.Execute K st
    (r.2.2 ++ WorkComplete r.1.errmsg r.1.HandleOKCallback, r.2.1)
  | .findCredentials w =>
    let r := w.Execute K st
    (r.2.2 ++ WorkComplete r.1.errmsg r.1.HandleOKCallback, r.2.1)

/-- The argument vectors of the callback invocations among the events. -/
def callbackCalls : List Event → List (List JSValue)
  | [] => []
  | Event.callbackCalled argv :: rest => argv :: callbackCalls rest
  | Event.backendReturned _ _ :: rest => callbackCalls rest

/-- Reference for SetPassword in the words of the specification (section 4.1): add with
the duplicate reported as nonfatal; a success or fatal failure is returned unchanged;
on a nonfatal failure delete, propagate a fatal delete failure, and otherwise return
the outcome of one more add with the duplicate reported as fatal. -/
def SetPassword_reference (K : Keychain σ) (st : σ) (service account password : String)
    (error : String) : OpOut σ :=
  match AddPassword K st service account password error true with
  | ⟨SUCCESS, e, s⟩ => ⟨SUCCESS, e, s⟩
  | ⟨FAIL_ERROR, e, s⟩ => ⟨FAIL_ERROR, e, s⟩
  | ⟨FAIL_NONFATAL, e, s⟩ =>
    match DeletePassword K s service account e with
    | ⟨FAIL_ERROR, e2, s2⟩ => ⟨FAIL_ERROR, e2, s2⟩
    | ⟨_, e2, s2⟩ => AddPassword K s2 service account password e2 false

theorem cstr_idem (s : String) : cstr (cstr s) = cstr s := by
  unfold cstr
  simp [List.takeWhile_idem]

theorem cstr_errorStatusToString (K : Keychain σ) (status : OSStatus) :
    cstr (errorStatusToString K status) = errorStatusToString K status := by
  simp only [errorStatusToString]
  split
  · exact cstr_idem _
  · decide

/-! ## The backend over an arbitrary keychain -/

/-- Claim C3: for every input and every behaviour of the native calls, `SetPassword`
equals the reference algorithm.  Spelled out: when the first add (duplicates nonfatal)
ends in SUCCESS or FAIL_ERROR, `SetPassword` returns exactly that add's outcome, error
output and keychain state, so nothing was called after it; when it ends in FAIL_NONFATAL
and the one delete ends in FAIL_ERROR, the delete's outcome is returned with no retry;
otherwise the outcome of one add with `returnNonfatalOnDuplicate = false`, run after the
delete, is returned. -/
theorem SetPassword_eq_reference (K : Keychain σ) (st : σ)
    (service account password error : String) :
    SetPassword K st service account password error
        = SetPassword_reference K st service account password error ∧
    ((AddPassword K st service account password error true).result ≠ FAIL_NONFATAL →
      SetPassword K st service account password error
        = AddPassword K st service account password error true) ∧
    ((AddPassword K st service account password error true).result = FAIL_NONFATAL →
      ((DeletePassword K (AddPassword K st service account password error true).state
            service account (AddPassword K st service account password error true).error).result
          = FAIL_ERROR →
        SetPassword K st service account password error
          = DeletePassword K (AddPassword K st service account password error true).state
              service account (AddPassword K st service account password error true).error) ∧
      ((DeletePassword K (AddPassword K st service account password error true).state
            service account (AddPassword K st service account password error true).error).result
          ≠ FAIL_ERROR →
        SetPassword K st service account password error
          = AddPassword K
              (DeletePassword K (AddPassword K st service account password error true).state
                service account
                (AddPassword K st service account password error true).error).state
              service account password
              (DeletePassword K (AddPassword K st service account password error true).state
                service account
                (AddPassword K st service account password error true).error).error
              false)) := by
  unfold SetPassword SetPassword_reference
  rcases hadd : AddPassword K st service account password error true with ⟨r, e, s⟩
  cases r
  · simp
  · simp
  · simp only [if_true]
    rcases hdel : DeletePassword K s service account e with ⟨r2, e2, s2⟩
    cases r2 <;> simp

theorem foldl_push_eq_append_map {α β : Type} (f : α → β) (l : List α) (init : List β) :
    l.foldl (fun acc x => acc ++ [f x]) init = init ++ l.map f := by
  induction l generalizing init with
  | nil => simp
  | cons x xs ih => simp [ih]

/-- Claim C10: for every task of every operation and every behaviour of the backend,
running the task yields exactly two events in this order: the return of its one backend
call, then one invocation of the completion callback; and the keychain is left in the
state that single backend call produced. -/
theorem task_one_backend_call_then_one_callback (K : Keychain σ) (st : σ) (task : Task) :
    (∃ result argv, (Task.run K st task).1
        = [Event.backendReturned task.operation result, Event.callbackCalled argv]) ∧
    (callbackCalls (Task.run K st task).1).length = 1 ∧
    (Task.run K st task).2 =
      (match task with
       | Task.setPassword w => (SetPassword K st w.service w.account w.password "").state
       | Task.getPassword w => (GetPassword K st w.service w.account w.password "").state
       | Task.deletePassword w => (DeletePassword K st w.service w.account "").state
       | Task.findPassword w => (FindPassword K st w.service w.password "").state
       | Task.findCredentials w => (FindCredentials K st w.service w.credentials "").state) := by
  cases task with
  | setPassword w =>
    simp only [Task.run, Task.operation, SetPasswordWorker.Execute]
    split <;> cases hm : w.errmsg <;>
      simp [WorkComplete, HandleErrorCallback, defaultHandleOKCallback, callbackCalls, hm]
  | getPassword w =>
    simp only [Task.run, Task.operation, GetPasswordWorker.Execute]
    split
    · simp [WorkComplete, HandleErrorCallback, callbackCalls]
    · split <;> cases hm : w.errmsg <;>
        simp [WorkComplete, HandleErrorCallback, GetPasswordWorker.HandleOKCallback,
          callbackCalls, hm]
  | deletePassword w =>
    simp only [Task.run, Task.operation, DeletePasswordWorker.Execute]
    split
    · simp [WorkComplete, HandleErrorCallback, callbackCalls]
    · split <;> cases hm : w.errmsg <;>
        simp [WorkComplete, HandleErrorCallback, DeletePasswordWorker.HandleOKCallback,
          callbackCalls, hm]
  | findPassword w =>
    simp only [Task.run, Task.operation, FindPasswordWorker.Execute]
    split
    · simp [WorkComplete, HandleErrorCallback, callbackCalls]
    · split <;> cases hm : w.errmsg <;>
        simp [WorkComplete, HandleErrorCallback, FindPasswordWorker.HandleOKCallback,
          callbackCalls, hm]
  | findCredentials w =>
    simp only [Task.run, Task.operation, FindCredentialsWorker.Execute]
    split
    · simp [WorkComplete, HandleErrorCallback, callbackCalls]
    · split <;> cases hm : w.errmsg <;>
        simp [WorkComplete, HandleErrorCallback, FindCredentialsWorker.HandleOKCallback,
          callbackCalls, hm]

/-- Claim C8: for every service and keychain state, when `FindCredentials` returns
FAIL_NONFATAL or FAIL_ERROR the output list is exactly the list passed in; FAIL_NONFATAL
is returned exactly when the native query reports item-not-found and FAIL_ERROR exactly
on any other non-success status; and on FAIL_NONFATAL the worker's completion delivers
(null, empty array). -/
theorem FindCredentials_failure_adds_nothing (K : Keychain σ) (st : σ) (service : String)
    (credentials : List Credentials) (error : String) (success0 : Bool)
    (h : (FindCredentials K st service credentials error).result = FAIL_NONFATAL ∨
      (FindCredentials K st service credentials error).result = FAIL_ERROR) :
    (FindCredentials K st service credentials error).credentials = credentials ∧
    ((FindCredentials K st service credentials error).result = FAIL_NONFATAL ↔
      (K.SecItemCopyMatching st (cstr service)).1 = errSecItemNotFound) ∧
    ((FindCredentials K st service credentials error).result = FAIL_ERROR ↔
      ((K.SecItemCopyMatching st (cstr service)).1 ≠ errSecSuccess ∧
        (K.SecItemCopyMatching st (cstr service)).1 ≠ errSecItemNotFound)) ∧
    ((FindCredentials K st service credentials error).result = FAIL_NONFATAL →
      callbackCalls (Task.run K st
          (Task.findCredentials (FindCredentialsWorker.create service success0))).1
        = [[JSValue.null, JSValue.array []]]) := by
  have hne : errSecItemNotFound ≠ errSecSuccess := by decide
  simp only [FindCredentials, Task.run, FindCredentialsWorker.Execute,
    FindCredentialsWorker.create] at h ⊢
  generalize (K.SecItemCopyMatching st (cstr service)) = r at h ⊢
  by_cases h1 : r.1 = errSecSuccess
  · simp [h1] at h
  · by_cases h2 : r.1 = errSecItemNotFound
    · simp [h1, h2, hne, WorkComplete, FindCredentialsWorker.HandleOKCallback, callbackCalls]
    · simp [h1, h2]

/-- Witness for C8 on the empty store, where the query reports item-not-found. -/
theorem FindCredentials_failure_adds_nothing_witness :
    (FindCredentials keychainStore Store.empty "svc" [("kept", "entry", [])] "").credentials
        = [("kept", "entry", [])] ∧
      ((FindCredentials keychainStore Store.empty "svc" [("kept", "entry", [])] "").result
          = FAIL_NONFATAL →
        callbackCalls (Task.run keychainStore Store.empty
            (Task.findCredentials (FindCredentialsWorker.create "svc" true))).1
          = [[JSValue.null, JSValue.array []]]) :=
  have h := FindCredentials_failure_adds_nothing keychainStore Store.empty "svc"
    [("kept", "entry", [])] "" true (Or.inl (by decide))
  ⟨h.1, h.2.2.2⟩

/-! ## The store: lemmas on the native calls -/

theorem matchesQuery_some_iff (service account : String) (e : StoreEntry) :
    matchesQuery service (some account) e = true ↔ e.key = (service, account) := by
  simp [matchesQuery, StoreEntry.key, Prod.ext_iff]

theorem matchesQuery_none_iff (service : String) (e : StoreEntry) :
    matchesQuery service none e = true ↔ e.server = service := by
  simp [matchesQuery]

theorem key_mem_iff (service account : String) (l : List StoreEntry) :
    (service, account) ∈ l.map StoreEntry.key ↔ ∃ e ∈ l, e.key = (service, account) := by
  simp [List.mem_map]

theorem find?_eq_none_of_absent (service account : String) (l : List StoreEntry)
    (h : (service, account) ∉ l.map StoreEntry.key) :
    l.find? (matchesQuery service (some account)) = none := by
  rw [List.find?_eq_none]
  intro e he hm
  exact h ((key_mem_iff service account l).2 ⟨e, he, (matchesQuery_some_iff service account e).1 hm⟩)

theorem filter_absent (service account : String) (l : List StoreEntry)
    (h : (service, account) ∉ l.map StoreEntry.key) :
    l.filter (fun e => decide (e.key ≠ (service, account))) = l := by
  rw [List.filter_eq_self]
  intro e he
  have : e.key ≠ (service, account) := fun hk => h ((key_mem_iff service account l).2 ⟨e, he, hk⟩)
  simpa using this

theorem eraseIdx_findIdx_eq_filter (service account : String) (l : List StoreEntry)
    (hn : (l.map StoreEntry.key).Nodup) :
    l.eraseIdx (l.findIdx (matchesQuery service (some account)))
      = l.filter (fun e => decide (e.key ≠ (service, account))) := by
  induction l with
  | nil => simp
  | cons x xs ih =>
    rw [List.map_cons, List.nodup_cons] at hn
    by_cases hx : matchesQuery service (some account) x = true
    · have hk : x.key = (service, account) := (matchesQuery_some_iff service account x).1 hx
      have habs : (service, account) ∉ xs.map StoreEntry.key := by rw [← hk]; exact hn.1
      rw [List.findIdx_cons, hx]
      simp only [cond_true, List.eraseIdx_cons_zero]
      rw [List.filter_cons_of_neg (by simp [hk]), filter_absent service account xs habs]
    · have hk : x.key ≠ (service, account) :=
        fun h => hx ((matchesQuery_some_iff service account x).2 h)
      have hx2 : matchesQuery service (some account) x = false := by simpa using hx
      rw [List.findIdx_cons, hx2]
      simp only [cond_false, List.eraseIdx_cons_succ]
      rw [List.filter_cons_of_pos (by simpa using hk), ih hn.2]

theorem key_not_mem_filter (service account : String) (l : List StoreEntry) :
    (service, account) ∉
      (l.filter (fun e => decide (e.key ≠ (service, account)))).map StoreEntry.key := by
  rw [key_mem_iff]
  rintro ⟨e, he, hk⟩
  have := (List.mem_filter.1 he).2
  simp [hk] at this

theorem Store.add_absent (s : Store) (service account password : String)
    (h : (service, account) ∉ s.entries.map StoreEntry.key) :
    (Store.add s service account password).1 = errSecSuccess ∧
      (Store.add s service account password).2.entries
        = s.entries ++ [newEntry service account password] := by
  simp [Store.add, h]

theorem Store.add_present (s : Store) (service account password : String)
    (h : (service, account) ∈ s.entries.map StoreEntry.key) :
    Store.add s service account password = (errSecDuplicateItem, s) := by
  simp [Store.add, h]

theorem Store.find_absent (s : Store) (service account : String)
    (h : (service, account) ∉ s.entries.map StoreEntry.key) :
    Store.find s service (some account) = (errSecItemNotFound, ⟨"", 0⟩, s) := by
  simp [Store.find, find?_eq_none_of_absent service account s.entries h]

theorem Store.find_present (s : Store) (service account : String)
    (h : (service, account) ∈ s.entries.map StoreEntry.key) :
    ∃ e, e ∈ s.entries ∧ e.key = (service, account) ∧
      Store.find s service (some account)
        = (errSecSuccess,
            ⟨e.password, s.entries.findIdx (matchesQuery service (some account))⟩, s) ∧
      s.entries.findIdx (matchesQuery service (some account)) < s.entries.length := by
  obtain ⟨e0, he0, hk0⟩ := (key_mem_iff service account s.entries).1 h
  have hm0 : matchesQuery service (some account) e0 = true :=
    (matchesQuery_some_iff service account e0).2 hk0
  cases hf : s.entries.find? (matchesQuery service (some account)) with
  | none =>
    rw [List.find?_eq_none] at hf
    exact absurd hm0 (hf e0 he0)
  | some e =>
    refine ⟨e, List.mem_of_find?_eq_some hf, ?_, ?_, ?_⟩
    · exact (matchesQuery_some_iff service account e).1 (List.find?_some hf)
    · simp [Store.find, hf]
    · exact List.findIdx_lt_length_of_exists ⟨e0, he0, hm0⟩

/-! ## The backend on the store -/

theorem GetPassword_store_absent (s : Store) (service account password error : String)
    (h : (service, account) ∉ s.entries.map StoreEntry.key) :
    GetPassword keychainStore s service account password error
      = ⟨FAIL_NONFATAL, password, error, s⟩ := by
  simp [GetPassword, keychainStore, Store.find_absent s service account h]

theorem GetPassword_store_of_find (s : Store) (service account password error : String)
    (e : StoreEntry) (h : s.entries.find? (matchesQuery service (some account)) = some e) :
    GetPassword keychainStore s service account password error
      = ⟨SUCCESS, e.password, error, s⟩ := by
  have h1 : errSecSuccess ≠ errSecItemNotFound := by decide
  simp [GetPassword, keychainStore, Store.find, h, h1]

theorem DeletePassword_store_absent (s : Store) (service account error : String)
    (h : (service, account) ∉ s.entries.map StoreEntry.key) :
    DeletePassword keychainStore s service account error = ⟨FAIL_NONFATAL, error, s⟩ := by
  simp [DeletePassword, keychainStore, Store.find_absent s service account h]

theorem DeletePassword_store_present (s : Store) (service account error : String)
    (h : (service, account) ∈ s.entries.map StoreEntry.key) :
    (DeletePassword keychainStore s service account error).result = SUCCESS ∧
      (DeletePassword keychainStore s service account error).error = error ∧
      (DeletePassword keychainStore s service account error).state.entries
        = s.entries.filter (fun e => decide (e.key ≠ (service, account))) := by
  have h1 : errSecSuccess ≠ errSecItemNotFound := by decide
  obtain ⟨e, _, _, hfind, hlt⟩ := Store.find_present s service account h
  simp [DeletePassword, keychainStore, hfind, h1, Store.delete, hlt,
    eraseIdx_findIdx_eq_filter service account s.entries s.nodup]

theorem FindPassword_store_absent (s : Store) (service password error : String)
    (h : ∀ e ∈ s.entries, e.server ≠ service) :
    FindPassword keychainStore s service password error
      = ⟨FAIL_NONFATAL, password, error, s⟩ := by
  have hf : s.entries.find? (matchesQuery service none) = none := by
    rw [List.find?_eq_none]
    intro e he hm
    exact h e he ((matchesQuery_none_iff service e).1 hm)
  simp [FindPassword, keychainStore, Store.find, hf]

theorem AddPassword_store_absent (s : Store) (service account password error : String)
    (flag : Bool) (h : (service, account) ∉ s.entries.map StoreEntry.key) :
    (AddPassword keychainStore s service account password error flag).result = SUCCESS ∧
      (AddPassword keychainStore s service account password error flag).error = error ∧
      (AddPassword keychainStore s service account password error flag).state.entries
        = s.entries ++ [newEntry service account password] := by
  have h1 : errSecSuccess ≠ errSecDuplicateItem := by decide
  obtain ⟨ha, hb⟩ := Store.add_absent s service account password h
  simp only [AddPassword, keychainStore]
  simp [ha, hb, h1]

theorem SetPassword_store (s : Store) (service account password error : String) :
    (SetPassword keychainStore s service account password error).result = SUCCESS ∧
      (SetPassword keychainStore s service account password error).error = error ∧
      (SetPassword keychainStore s service account password error).state.entries
        = s.entries.filter (fun e => decide (e.key ≠ (service, account)))
            ++ [newEntry service account password] := by
  by_cases h : (service, account) ∈ s.entries.map StoreEntry.key
  · have hadd : AddPassword keychainStore s service account password error true
        = ⟨FAIL_NONFATAL, error, s⟩ := by
      simp [AddPassword, keychainStore, Store.add_present s service account password h]
    obtain ⟨hd1, hd2, hd3⟩ := DeletePassword_store_present s service account error h
    have habs : (service, account) ∉
        (DeletePassword keychainStore s service account error).state.entries.map
          StoreEntry.key := by
      rw [hd3]; exact key_not_mem_filter service account s.entries
    obtain ⟨ha1, ha2, ha3⟩ := AddPassword_store_absent
      (DeletePassword keychainStore s service account error).state service account password
      (DeletePassword keychainStore s service account error).error false habs
    simp only [SetPassword, hadd, if_true, hd1]
    simp only [reduceCtorEq, if_false]
    rw [ha1, ha2, ha3, hd2, hd3]
    exact ⟨rfl, rfl, rfl⟩
  · obtain ⟨ha1, ha2, ha3⟩ := AddPassword_store_absent s service account password error true h
    simp only [SetPassword, ha1]
    simp only [reduceCtorEq, if_false]
    rw [filter_absent service account s.entries h]
    exact ⟨trivial, ha2, ha3⟩

theorem find?_after_set (service account password : String) (l : List StoreEntry) :
    (l.filter (fun e => decide (e.key ≠ (service, account)))
        ++ [newEntry service account password]).find? (matchesQuery service (some account))
      = some (newEntry service account password) := by
  have hnone := find?_eq_none_of_absent service account _ (key_not_mem_filter service account l)
  have hm : matchesQuery service (some account) (newEntry service account password) = true :=
    (matchesQuery_some_iff service account _).2 rfl
  rw [List.find?_append, hnone]
  simp [List.find?_cons, hm]

/-! ## Claims on the store -/

/-- Claim C1: for all service, account and secret strings and every store state,
`SetPassword(service, account, secret)` followed by `GetPassword(service, account)`
returns SUCCESS from both calls, and the password `GetPassword` writes is exactly
`secret`; neither call touches the error output. -/
theorem SetPassword_then_GetPassword (s : Store)
    (service account secret error password error2 : String) :
    (SetPassword keychainStore s service account secret error).result = SUCCESS ∧
    (GetPassword keychainStore (SetPassword keychainStore s service account secret error).state
        service account password error2).result = SUCCESS ∧
    (GetPassword keychainStore (SetPassword keychainStore s service account secret error).state
        service account password error2).password = secret ∧
    (SetPassword keychainStore s service account secret error).error = error ∧
    (GetPassword keychainStore (SetPassword keychainStore s service account secret error).state
        service account password error2).error = error2 := by
  obtain ⟨h1, h2, h3⟩ := SetPassword_store s service account secret error
  have hf := find?_after_set service account secret s.entries
  rw [← h3] at hf
  rw [GetPassword_store_of_find _ service account password error2 _ hf]
  exact ⟨h1, rfl, rfl, h2, rfl⟩

/-- Claim C2: for all (service, account), every store state and any two secrets s1 and
s2, `SetPassword` with s1 and then with s2 both return SUCCESS; afterwards
`GetPassword(service, account)` returns SUCCESS with s2, the store holds exactly one
entry for (service, account), the one carrying s2, and the entries of all other pairs
are those of the initial store, in the same order. -/
theorem SetPassword_twice_overwrites (s : Store)
    (service account s1 s2 error password error2 : String) :
    (SetPassword keychainStore s service account s1 error).result = SUCCESS ∧
    (SetPassword keychainStore (SetPassword keychainStore s service account s1 error).state
        service account s2 error).result = SUCCESS ∧
    GetPassword keychainStore
        (SetPassword keychainStore (SetPassword keychainStore s service account s1 error).state
          service account s2 error).state service account password error2
      = ⟨SUCCESS, s2, error2,
          (SetPassword keychainStore
            (SetPassword keychainStore s service account s1 error).state
            service account s2 error).state⟩ ∧
    (SetPassword keychainStore (SetPassword keychainStore s service account s1 error).state
        service account s2 error).state.entries.filter
          (fun e => decide (e.key = (service, account)))
      = [newEntry service account s2] ∧
    (SetPassword keychainStore (SetPassword keychainStore s service account s1 error).state
        service account s2 error).state.entries.filter
          (fun e => decide (e.key ≠ (service, account)))
      = s.entries.filter (fun e => decide (e.key ≠ (service, account))) := by
  obtain ⟨h1, _, h3⟩ := SetPassword_store s service account s1 error
  obtain ⟨k1, _, k3⟩ := SetPassword_store
    (SetPassword keychainStore s service account s1 error).state service account s2 error
  have hf := find?_after_set service account s2
    (SetPassword keychainStore s service account s1 error).state.entries
  rw [← k3] at hf
  refine ⟨h1, k1, ?_, ?_, ?_⟩
  · rw [GetPassword_store_of_find _ service account password error2 _ hf]
    rfl
  · rw [k3, h3]
    simp [List.filter_append, List.filter_filter, newEntry, StoreEntry.key]
  · rw [k3, h3]
    simp [List.filter_append, List.filter_filter, newEntry, StoreEntry.key]

/-- Claim C5: for every store state, when no entry has the pair (service, account),
`GetPassword` and `DeletePassword` return FAIL_NONFATAL and leave the password output,
the error output and the store as they were; when no entry has the service,
`FindPassword` does the same. -/
theorem absent_entry_is_nonfatal (s : Store) (service account password error : String) :
    ((∀ e ∈ s.entries, e.key ≠ (service, account)) →
      GetPassword keychainStore s service account password error
          = ⟨FAIL_NONFATAL, password, error, s⟩ ∧
        DeletePassword keychainStore s service account error
          = ⟨FAIL_NONFATAL, error, s⟩) ∧
    ((∀ e ∈ s.entries, e.server ≠ service) →
      FindPassword keychainStore s service password error
        = ⟨FAIL_NONFATAL, password, error, s⟩) := by
  refine ⟨fun h => ?_, fun h => FindPassword_store_absent s service password error h⟩
  have habs : (service, account) ∉ s.entries.map StoreEntry.key := by
    rw [key_mem_iff]
    rintro ⟨e, he, hk⟩
    exact h e he hk
  exact ⟨GetPassword_store_absent s service account password error habs,
    DeletePassword_store_absent s service account error habs⟩

/-- Witness for C5: a store holding only ("svc", "bob"), queried for ("svc", "alice") and
for the service "other". -/
theorem absent_entry_is_nonfatal_witness :
    (GetPassword keychainStore (SetPassword keychainStore Store.empty "svc" "bob" "pw" "").state
        "svc" "alice" "old" "").result = FAIL_NONFATAL ∧
    (DeletePassword keychainStore
        (SetPassword keychainStore Store.empty "svc" "bob" "pw" "").state
        "svc" "alice" "").result = FAIL_NONFATAL ∧
    (FindPassword keychainStore (SetPassword keychainStore Store.empty "svc" "bob" "pw" "").state
        "other" "old" "").password = "old" := by
  have h := absent_entry_is_nonfatal
    (SetPassword keychainStore Store.empty "svc" "bob" "pw" "").state "svc" "alice" "old" ""
  have g := absent_entry_is_nonfatal
    (SetPassword keychainStore Store.empty "svc" "bob" "pw" "").state "other" "alice" "old" ""
  have h1 := h.1 (by decide)
  have g2 := g.2 (by decide)
  rw [h1.1, h1.2, g2]
  exact ⟨rfl, rfl, rfl⟩

/-- Claim C6: for every (service, account) and every store state, once
`DeletePassword(service, account)` has returned SUCCESS, `GetPassword(service, account)`
returns FAIL_NONFATAL and its worker delivers (null, null), and a second
`DeletePassword(service, account)` returns FAIL_NONFATAL and its worker delivers
(null, false); both leave the store as the first delete left it. -/
theorem delete_is_idempotent (s : Store) (service account error password error2 : String)
    (success0 : Bool)
    (h : (DeletePassword keychainStore s service account error).result = SUCCESS) :
    GetPassword keychainStore (DeletePassword keychainStore s service account error).state
        service account password error2
      = ⟨FAIL_NONFATAL, password, error2,
          (DeletePassword keychainStore s service account error).state⟩ ∧
    DeletePassword keychainStore (DeletePassword keychainStore s service account error).state
        service account error2
      = ⟨FAIL_NONFATAL, error2, (DeletePassword keychainStore s service account error).state⟩ ∧
    callbackCalls (Task.run keychainStore
        (DeletePassword keychainStore s service account error).state
        (Task.getPassword (GetPasswordWorker.create service account success0))).1
      = [[JSValue.null, JSValue.null]] ∧
    callbackCalls (Task.run keychainStore
        (DeletePassword keychainStore s service account error).state
        (Task.deletePassword (DeletePasswordWorker.create service account success0))).1
      = [[JSValue.null, JSValue.boolean false]] := by
  have hmem : (service, account) ∈ s.entries.map StoreEntry.key := by
    by_contra hn
    rw [DeletePassword_store_absent s service account error hn] at h
    simp at h
  obtain ⟨_, _, hd3⟩ := DeletePassword_store_present s service account error hmem
  have habs : (service, account) ∉
      (DeletePassword keychainStore s service account error).state.entries.map
        StoreEntry.key := by
    rw [hd3]; exact key_not_mem_filter service account s.entries
  refine ⟨GetPassword_store_absent _ service account password error2 habs,
    DeletePassword_store_absent _ service account error2 habs, ?_, ?_⟩
  · simp [Task.run, GetPasswordWorker.Execute, GetPasswordWorker.create,
      GetPassword_store_absent _ service account "" "" habs, WorkComplete,
      GetPasswordWorker.HandleOKCallback, callbackCalls]
  · simp [Task.run, DeletePasswordWorker.Execute, DeletePasswordWorker.create,
      DeletePassword_store_absent _ service account "" habs, WorkComplete,
      DeletePasswordWorker.HandleOKCallback, callbackCalls]

/-- Witness for C6: the scenario of the specification, deleting ("svc", "alice") after it
was set. -/
theorem delete_is_idempotent_witness :
    (GetPassword keychainStore
        (DeletePassword keychainStore
          (SetPassword keychainStore Store.empty "svc" "alice" "p2" "").state
          "svc" "alice" "").state "svc" "alice" "" "").result = FAIL_NONFATAL ∧
    (DeletePassword keychainStore
        (DeletePassword keychainStore
          (SetPassword keychainStore Store.empty "svc" "alice" "p2" "").state
          "svc" "alice" "").state "svc" "alice" "").result = FAIL_NONFATAL := by
  have h := delete_is_idempotent
    (SetPassword keychainStore Store.empty "svc" "alice" "p2" "").state
    "svc" "alice" "" "" "" true (by decide)
  rw [h.1, h.2.1]
  exact ⟨rfl, rfl⟩

/-! ## Enumeration -/

/-- Claim C7, the code at a failing input: after the backend itself stores a secret for
the account "日本" of service "svc", `FindCredentials("svc")` returns SUCCESS with one
credential whose account is the empty string, not "日本".  The account has two UTF-16
code units, so `CFStringToStdString` sizes its buffer at 2 * 2 + 1 = 5 bytes, while the
UTF-8 text with its NUL takes 7; `CFStringGetCString` fails and the empty string is
returned. -/
theorem FindCredentials_loses_wide_account :
    (SetPassword keychainStore Store.empty "svc" "日本" "pw" "").result = SUCCESS ∧
    (FindCredentials keychainStore
        (SetPassword keychainStore Store.empty "svc" "日本" "pw" "").state "svc" [] "").result
      = SUCCESS ∧
    (FindCredentials keychainStore
        (SetPassword keychainStore Store.empty "svc" "日本" "pw" "").state "svc" [] "").credentials
      = [("svc", "", [])] ∧
    CFStringGetLength ⟨"日本", false⟩ * 2 + 1 = 5 ∧
    CFStringGetCString ⟨"日本", false⟩ 5 = none ∧
    CFStringGetCString ⟨"日本", false⟩ 7 = some "日本" ∧
    CFStringToStdString ⟨"日本", false⟩ = "" := by
  decide

theorem cstr_of_no_nul (s : String) (h : Char.ofNat 0 ∉ s.data) : cstr s = s := by
  unfold cstr
  have : s.data.takeWhile (fun c => decide (c ≠ Char.ofNat 0)) = s.data := by
    rw [List.takeWhile_eq_self_iff]
    intro c hc
    have : c ≠ Char.ofNat 0 := fun hz => h (hz ▸ hc)
    simpa using this
  rw [this]

/-- Conversion is exact when it can be: `CFStringToStdString` returns the characters of a
CoreFoundation string that holds no NUL whenever CoreFoundation hands out a direct
C-string pointer, or the UTF-8 text is at most twice as long as the UTF-16 text. -/
theorem CFStringToStdString_exact (cf : CFString) (hnul : Char.ofNat 0 ∉ cf.chars.data)
    (hfit : cf.hasCStringPtr = true ∨
      (cf.chars.data.map utf8Bytes).sum ≤ 2 * (cf.chars.data.map utf16Units).sum) :
    CFStringToStdString cf = cf.chars := by
  unfold CFStringToStdString CFStringGetCStringPtr
  by_cases hp : cf.hasCStringPtr = true
  · simp [hp, cstr_of_no_nul cf.chars hnul]
  · have hle : (cf.chars.data.map utf8Bytes).sum ≤ 2 * (cf.chars.data.map utf16Units).sum := by
      rcases hfit with h | h
      · exact absurd h hp
      · exact h
    have hfits : (cf.chars.data.map utf8Bytes).sum + 1
        ≤ (cf.chars.data.map utf16Units).sum * 2 + 1 := by omega
    simp [hp, CFStringGetCString, CFStringGetLength, hfits, cstr_of_no_nul cf.chars hnul]

/-- Witness for the exact conversion: "José" has 5 UTF-8 bytes and 4 UTF-16 code units. -/
theorem CFStringToStdString_exact_witness :
    CFStringToStdString ⟨"José", false⟩ = "José" :=
  CFStringToStdString_exact ⟨"José", false⟩ (by decide) (Or.inr (by decide))

/-- What holds of the enumeration for every keychain behaviour: when the native query
reports success with a list of entries, `FindCredentials` returns SUCCESS, leaves the
error output alone, and appends one credential per entry in the list's order; each
credential's settings carry exactly the keys of the attributes present on its entry, in
the order path, domain, port, protocol, the port written in decimal; server, account
and the string values are what `CFStringToStdString` makes of the entry's strings. -/
theorem FindCredentials_success_shape (K : Keychain σ) (st : σ) (service : String)
    (credentials : List Credentials) (error : String)
    (h : (K.SecItemCopyMatching st (cstr service)).1 = errSecSuccess) :
    (FindCredentials K st service credentials error).result = SUCCESS ∧
    (FindCredentials K st service credentials error).error = error ∧
    (FindCredentials K st service credentials error).credentials
      = credentials ++ (K.SecItemCopyMatching st (cstr service)).2.1.map
          (fun item =>
            (CFStringToStdString item.server, CFStringToStdString item.account,
              (item.path.map (fun v => ("path", CFStringToStdString v))).toList
                ++ (item.securityDomain.map (fun v => ("domain", CFStringToStdString v))).toList
                ++ (item.port.map (fun v => ("port", toString v))).toList
                ++ (item.protocol.map (fun v => ("protocol", CFStringToStdString v))).toList)) ∧
    (FindCredentials K st service credentials error).credentials.length
      = credentials.length + (K.SecItemCopyMatching st (cstr service)).2.1.length := by
  have hitem : ∀ item : KeychainItem, itemToCredentials item
      = (CFStringToStdString item.server, CFStringToStdString item.account,
          (item.path.map (fun v => ("path", CFStringToStdString v))).toList
            ++ (item.securityDomain.map (fun v => ("domain", CFStringToStdString v))).toList
            ++ (item.port.map (fun v => ("port", toString v))).toList
            ++ (item.protocol.map (fun v => ("protocol", CFStringToStdString v))).toList) := by
    intro item
    rcases item with ⟨sv, ac, pa, dom, po, pr⟩
    cases pa <;> cases dom <;> cases po <;> cases pr <;> simp [itemToCredentials]
  simp only [FindCredentials, h, if_true, foldl_push_eq_append_map]
  refine ⟨trivial, trivial, ?_, ?_⟩
  · congr 1
    exact List.map_congr_left (fun item _ => hitem item)
  · simp

/-- Witness for the enumeration: two accounts under one service, in the store's order. -/
theorem FindCredentials_success_shape_witness :
    (FindCredentials keychainStore
        (SetPassword keychainStore
          (SetPassword keychainStore Store.empty "X" "alice" "p1" "").state
          "X" "bob" "p2" "").state "X" [] "").credentials
      = [("X", "alice", []), ("X", "bob", [])] := by
  have h := FindCredentials_success_shape keychainStore
    (SetPassword keychainStore
      (SetPassword keychainStore Store.empty "X" "alice" "p1" "").state
      "X" "bob" "p2" "").state "X" [] "" (by decide)
  rw [h.2.2.1]
  decide

/-! ## The error output -/

theorem AddPassword_error (K : Keychain σ) (st : σ) (service account password error : String)
    (flag : Bool) :
    ((AddPassword K st service account password error flag).result = FAIL_ERROR →
      (K.SecKeychainAddInternetPassword st service account password).1 ≠ errSecSuccess ∧
        (AddPassword K st service account password error flag).error
          = errorStatusToString K
              (K.SecKeychainAddInternetPassword st service account password).1) ∧
    ((AddPassword K st service account password error flag).result ≠ FAIL_ERROR →
      (AddPassword K st service account password error flag).error = error) := by
  simp only [AddPassword]
  split
  · simp
  · split
    · rename_i h
      simp [h]
    · simp

theorem GetPassword_error (K : Keychain σ) (st : σ) (service account password error : String) :
    ((GetPassword K st service account password error).result = FAIL_ERROR →
      (K.SecKeychainFindInternetPassword st service (some account)).1 ≠ errSecSuccess ∧
        (K.SecKeychainFindInternetPassword st service (some account)).1 ≠ errSecItemNotFound ∧
        (GetPassword K st service account password error).error
          = errorStatusToString K
              (K.SecKeychainFindInternetPassword st service (some account)).1) ∧
    ((GetPassword K st service account password error).result ≠ FAIL_ERROR →
      (GetPassword K st service account password error).error = error) := by
  simp only [GetPassword]
  split
  · simp
  · split
    · rename_i h1 h2
      simp [h1, h2]
    · simp

theorem FindPassword_error (K : Keychain σ) (st : σ) (service password error : String) :
    ((FindPassword K st service password error).result = FAIL_ERROR →
      (K.SecKeychainFindInternetPassword st service none).1 ≠ errSecSuccess ∧
        (K.SecKeychainFindInternetPassword st service none).1 ≠ errSecItemNotFound ∧
        (FindPassword K st service password error).error
          = errorStatusToString K (K.SecKeychainFindInternetPassword st service none).1) ∧
    ((FindPassword K st service password error).result ≠ FAIL_ERROR →
      (FindPassword K st service password error).error = error) := by
  simp only [FindPassword]
  split
  · simp
  · split
    · rename_i h1 h2
      simp [h1, h2]
    · simp

theorem DeletePassword_error (K : Keychain σ) (st : σ) (service account error : String) :
    ((DeletePassword K st service account error).result = FAIL_ERROR →
      ((K.SecKeychainFindInternetPassword st service (some account)).1 ≠ errSecSuccess ∧
        (K.SecKeychainFindInternetPassword st service (some account)).1 ≠ errSecItemNotFound ∧
        (DeletePassword K st service account error).error
          = errorStatusToString K
              (K.SecKeychainFindInternetPassword st service (some account)).1) ∨
      ((K.SecKeychainFindInternetPassword st service (some account)).1 = errSecSuccess ∧
        (K.SecKeychainItemDelete
            (K.SecKeychainFindInternetPassword st service (some account)).2.2
            (K.SecKeychainFindInternetPassword st service (some account)).2.1.itemRef).1
          ≠ errSecSuccess ∧
        (DeletePassword K st service account error).error
          = errorStatusToString K
              (K.SecKeychainItemDelete
                (K.SecKeychainFindInternetPassword st service (some account)).2.2
                (K.SecKeychainFindInternetPassword st service (some account)).2.1.itemRef).1)) ∧
    ((DeletePassword K st service account error).result ≠ FAIL_ERROR →
      (DeletePassword K st service account error).error = error) := by
  simp only [DeletePassword]
  split
  · simp
  · split
    · rename_i h1 h2
      simp [h1, h2]
    · rename_i h1 h2
      have h3 : (K.SecKeychainFindInternetPassword st service (some account)).1
          = errSecSuccess := by simpa using h2
      split
      · rename_i h4
        simp [h3, h4]
      · simp

theorem FindCredentials_error (K : Keychain σ) (st : σ) (service : String)
    (credentials : List Credentials) (error : String) :
    ((FindCredentials K st service credentials error).result = FAIL_ERROR →
      (K.SecItemCopyMatching st (cstr service)).1 ≠ errSecSuccess ∧
        (K.SecItemCopyMatching st (cstr service)).1 ≠ errSecItemNotFound ∧
        (FindCredentials K st service credentials error).error
          = errorStatusToString K (K.SecItemCopyMatching st (cstr service)).1) ∧
    ((FindCredentials K st service credentials error).result ≠ FAIL_ERROR →
      (FindCredentials K st service credentials error).error = error) := by
  simp only [FindCredentials]
  split
  · simp
  · split
    · simp
    · rename_i h1 h2
      simp [h1, h2]

theorem DeletePassword_error_status (K : Keychain σ) (st : σ) (service account error : String)
    (h : (DeletePassword K st service account error).result = FAIL_ERROR) :
    ∃ status : OSStatus, status ≠ errSecSuccess ∧
      (DeletePassword K st service account error).error = errorStatusToString K status := by
  rcases (DeletePassword_error K st service account error).1 h with ⟨h1, _, h3⟩ | ⟨_, h2, h3⟩
  · exact ⟨_, h1, h3⟩
  · exact ⟨_, h2, h3⟩

theorem AddPassword_false_ne_nonfatal (K : Keychain σ) (st : σ)
    (service account password error : String) :
    (AddPassword K st service account password error false).result ≠ FAIL_NONFATAL := by
  simp only [AddPassword]
  split
  · rename_i h
    simp at h
  · split <;> simp

theorem SetPassword_cases (K : Keychain σ) (st : σ) (service account password error : String) :
    ((AddPassword K st service account password error true).result ≠ FAIL_NONFATAL ∧
      SetPassword K st service account password error
        = AddPassword K st service account password error true) ∨
    ((AddPassword K st service account password error true).result = FAIL_NONFATAL ∧
      (DeletePassword K (AddPassword K st service account password error true).state
          service account (AddPassword K st service account password error true).error).result
        = FAIL_ERROR ∧
      SetPassword K st service account password error
        = DeletePassword K (AddPassword K st service account password error true).state
            service account (AddPassword K st service account password error true).error) ∨
    ((AddPassword K st service account password error true).result = FAIL_NONFATAL ∧
      (DeletePassword K (AddPassword K st service account password error true).state
          service account (AddPassword K st service account password error true).error).result
        ≠ FAIL_ERROR ∧
      SetPassword K st service account password error
        = AddPassword K
            (DeletePassword K (AddPassword K st service account password error true).state
              service account (AddPassword K st service account password error true).error).state
            service account password
            (DeletePassword K (AddPassword K st service account password error true).state
              service account (AddPassword K st service account password error true).error).error
            false) := by
  unfold SetPassword
  rcases hadd : AddPassword K st service account password error true with ⟨r, e, s⟩
  cases r
  · simp
  · simp
  · simp only [if_true]
    rcases hdel : DeletePassword K s service account e with ⟨r2, e2, s2⟩
    cases r2 <;> simp

theorem SetPassword_ne_nonfatal (K : Keychain σ) (st : σ)
    (service account password error : String) :
    (SetPassword K st service account password error).result ≠ FAIL_NONFATAL := by
  rcases SetPassword_cases K st service account password error with ⟨h1, h2⟩ | ⟨_, h2, h3⟩ | ⟨_, _, h3⟩
  · rw [h2]; exact h1
  · rw [h3, h2]; decide
  · rw [h3]; exact AddPassword_false_ne_nonfatal K _ service account password _

theorem SetPassword_error_unchanged (K : Keychain σ) (st : σ)
    (service account password error : String)
    (h : (SetPassword K st service account password error).result ≠ FAIL_ERROR) :
    (SetPassword K st service account password error).error = error := by
  rcases SetPassword_cases K st service account password error with ⟨_, h2⟩ | ⟨_, h2, h3⟩ | ⟨h1, h2, h3⟩
  · rw [h2] at h ⊢
    exact (AddPassword_error K st service account password error true).2 h
  · rw [h3] at h
    exact absurd h2 h
  · rw [h3] at h ⊢
    rw [(AddPassword_error K _ service account password _ false).2 h,
      (DeletePassword_error K _ service account _).2 h2]
    exact (AddPassword_error K st service account password error true).2 (by rw [h1]; decide)

theorem SetPassword_error_status (K : Keychain σ) (st : σ)
    (service account password error : String)
    (h : (SetPassword K st service account password error).result = FAIL_ERROR) :
    ∃ status : OSStatus, status ≠ errSecSuccess ∧
      (SetPassword K st service account password error).error
        = errorStatusToString K status := by
  rcases SetPassword_cases K st service account password error with ⟨_, h2⟩ | ⟨_, h2, h3⟩ | ⟨_, _, h3⟩
  · rw [h2] at h ⊢
    exact ⟨_, (AddPassword_error K st service account password error true).1 h⟩
  · rw [h3]
    exact DeletePassword_error_status K _ service account _ h2
  · rw [h3] at h ⊢
    exact ⟨_, (AddPassword_error K _ service account password _ false).1 h⟩

theorem AddPassword_success_iff (K : Keychain σ) (st : σ)
    (service account password error : String) (flag : Bool) :
    (AddPassword K st service account password error flag).result = SUCCESS ↔
      (K.SecKeychainAddInternetPassword st service account password).1 = errSecSuccess := by
  have hne : errSecDuplicateItem ≠ errSecSuccess := by decide
  simp only [AddPassword]
  split
  · rename_i h
    have : (K.SecKeychainAddInternetPassword st service account password).1
        ≠ errSecSuccess := by rw [h.1]; exact hne
    simp [this]
  · split <;> simp_all

theorem AddPassword_nonfatal_iff (K : Keychain σ) (st : σ)
    (service account password error : String) (flag : Bool) :
    (AddPassword K st service account password error flag).result = FAIL_NONFATAL ↔
      ((K.SecKeychainAddInternetPassword st service account password).1 = errSecDuplicateItem
        ∧ flag = true) := by
  simp only [AddPassword]
  split
  · simp_all
  · split <;> simp_all

/-- Claim C11: for each of AddPassword, SetPassword, GetPassword, DeletePassword,
FindPassword and FindCredentials and every behaviour of the native calls: when the
operation returns FAIL_ERROR, the error output is `errorStatusToString` of the native
status that failed (the add status; the find status; for DeletePassword the find status
or else the delete status; the enumeration status; for SetPassword the status of the
first add, of the delete step, or of the second add, whichever failed); when it returns
SUCCESS or FAIL_NONFATAL, the error output is exactly the one passed in. -/
theorem error_output_set_only_on_fatal (K : Keychain σ) (st : σ)
    (service account password error : String) (returnNonfatalOnDuplicate : Bool)
    (credentials : List Credentials) :
    -- AddPassword
    ((AddPassword K st service account password error returnNonfatalOnDuplicate).result
        = FAIL_ERROR →
      (K.SecKeychainAddInternetPassword st service account password).1 ≠ errSecSuccess ∧
      (AddPassword K st service account password error returnNonfatalOnDuplicate).error
        = errorStatusToString K
            (K.SecKeychainAddInternetPassword st service account password).1) ∧
    (((AddPassword K st service account password error returnNonfatalOnDuplicate).result
          = SUCCESS ∨
        (AddPassword K st service account password error returnNonfatalOnDuplicate).result
          = FAIL_NONFATAL) →
      (AddPassword K st service account password error returnNonfatalOnDuplicate).error
        = error) ∧
    -- GetPassword
    ((GetPassword K st service account password error).result = FAIL_ERROR →
      (K.SecKeychainFindInternetPassword st service (some account)).1 ≠ errSecSuccess ∧
      (GetPassword K st service account password error).error
        = errorStatusToString K
            (K.SecKeychainFindInternetPassword st service (some account)).1) ∧
    (((GetPassword K st service account password error).result = SUCCESS ∨
        (GetPassword K st service account password error).result = FAIL_NONFATAL) →
      (GetPassword K st service account password error).error = error) ∧
    -- FindPassword
    ((FindPassword K st service password error).result = FAIL_ERROR →
      (K.SecKeychainFindInternetPassword st service none).1 ≠ errSecSuccess ∧
      (FindPassword K st service password error).error
        = errorStatusToString K (K.SecKeychainFindInternetPassword st service none).1) ∧
    (((FindPassword K st service password error).result = SUCCESS ∨
        (FindPassword K st service password error).result = FAIL_NONFATAL) →
      (FindPassword K st service password error).error = error) ∧
    -- DeletePassword
    ((DeletePassword K st service account error).result = FAIL_ERROR →
      ((K.SecKeychainFindInternetPassword st service (some account)).1 ≠ errSecSuccess ∧
        (DeletePassword K st service account error).error
          = errorStatusToString K
              (K.SecKeychainFindInternetPassword st service (some account)).1) ∨
      ((K.SecKeychainFindInternetPassword st service (some account)).1 = errSecSuccess ∧
        (K.SecKeychainItemDelete
            (K.SecKeychainFindInternetPassword st service (some account)).2.2
            (K.SecKeychainFindInternetPassword st service (some account)).2.1.itemRef).1
          ≠ errSecSuccess ∧
        (DeletePassword K st service account error).error
          = errorStatusToString K
              (K.SecKeychainItemDelete
                (K.SecKeychainFindInternetPassword st service (some account)).2.2
                (K.SecKeychainFindInternetPassword st service (some account)).2.1.itemRef).1)) ∧
    (((DeletePassword K st service account error).result = SUCCESS ∨
        (DeletePassword K st service account error).result = FAIL_NONFATAL) →
      (DeletePassword K st service account error).error = error) ∧
    -- FindCredentials
    ((FindCredentials K st service credentials error).result = FAIL_ERROR →
      (K.SecItemCopyMatching st (cstr service)).1 ≠ errSecSuccess ∧
      (FindCredentials K st service credentials error).error
        = errorStatusToString K (K.SecItemCopyMatching st (cstr service)).1) ∧
    (((FindCredentials K st service credentials error).result = SUCCESS ∨
        (FindCredentials K st service credentials error).result = FAIL_NONFATAL) →
      (FindCredentials K st service credentials error).error = error) ∧
    -- SetPassword
    ((SetPassword K st service account password error).result = FAIL_ERROR →
      (∃ status : OSStatus, status ≠ errSecSuccess ∧
        (SetPassword K st service account password error).error
          = errorStatusToString K status) ∧
      (((AddPassword K st service account password error true).result = FAIL_ERROR ∧
          (SetPassword K st service account password error).error
            = errorStatusToString K
                (K.SecKeychainAddInternetPassword st service account password).1) ∨
        ((AddPassword K st service account password error true).result = FAIL_NONFATAL ∧
          (DeletePassword K (AddPassword K st service account password error true).state
              service account error).result = FAIL_ERROR ∧
          (SetPassword K st service account password error).error
            = (DeletePassword K (AddPassword K st service account password error true).state
                service account error).error) ∨
        ((AddPassword K st service account password error true).result = FAIL_NONFATAL ∧
          (DeletePassword K (AddPassword K st service account password error true).state
              service account error).result ≠ FAIL_ERROR ∧
          (SetPassword K st service account password error).error
            = errorStatusToString K
                (K.SecKeychainAddInternetPassword
                  (DeletePassword K (AddPassword K st service account password error true).state
                    service account error).state
                  service account password).1))) ∧
    (((SetPassword K st service account password error).result = SUCCESS ∨
        (SetPassword K st service account password error).result = FAIL_NONFATAL) →
      (SetPassword K st service account password error).error = error) := by
  have ne_of : ∀ r : KEYTAR_OP_RESULT, (r = SUCCESS ∨ r = FAIL_NONFATAL) → r ≠ FAIL_ERROR := by
    intro r h
    rcases h with h | h <;> rw [h] <;> decide
  refine ⟨(AddPassword_error K st service account password error _).1,
    fun h => (AddPassword_error K st service account password error _).2 (ne_of _ h),
    fun h => ?_,
    fun h => (GetPassword_error K st service account password error).2 (ne_of _ h),
    fun h => ?_,
    fun h => (FindPassword_error K st service password error).2 (ne_of _ h),
    fun h => ?_,
    fun h => (DeletePassword_error K st service account error).2 (ne_of _ h),
    fun h => ?_,
    fun h => (FindCredentials_error K st service credentials error).2 (ne_of _ h),
    fun h => ⟨SetPassword_error_status K st service account password error h, ?_⟩,
    fun h => SetPassword_error_unchanged K st service account password error (ne_of _ h)⟩
  · obtain ⟨h1, _, h3⟩ := (GetPassword_error K st service account password error).1 h
    exact ⟨h1, h3⟩
  · obtain ⟨h1, _, h3⟩ := (FindPassword_error K st service password error).1 h
    exact ⟨h1, h3⟩
  · rcases (DeletePassword_error K st service account error).1 h with ⟨h1, _, h3⟩ | h2
    · exact Or.inl ⟨h1, h3⟩
    · exact Or.inr h2
  · obtain ⟨h1, _, h3⟩ := (FindCredentials_error K st service credentials error).1 h
    exact ⟨h1, h3⟩
  · rcases SetPassword_cases K st service account password error
      with ⟨_, h2⟩ | ⟨h1, h2, h3⟩ | ⟨h1, h2, h3⟩
    · rw [h2] at h ⊢
      exact Or.inl ⟨h, ((AddPassword_error K st service account password error true).1 h).2⟩
    · have he : (AddPassword K st service account password error true).error = error :=
        (AddPassword_error K st service account password error true).2 (by rw [h1]; decide)
      rw [he] at h2 h3
      exact Or.inr (Or.inl ⟨h1, h2, by rw [h3]⟩)
    · have he : (AddPassword K st service account password error true).error = error :=
        (AddPassword_error K st service account password error true).2 (by rw [h1]; decide)
      rw [he] at h2 h3
      rw [h3] at h ⊢
      exact Or.inr (Or.inr ⟨h1, h2,
        ((AddPassword_error K _ service account password _ false).1 h).2⟩)

/-- Claim C12: for every input and every behaviour of the native calls, `SetPassword`
returns SUCCESS or FAIL_ERROR and never FAIL_NONFATAL; it returns SUCCESS only when the
last native add it made reported success (the first add, or the add retried after the
delete step); and `SetPasswordWorker` completes with the argument-less success callback
exactly when `SetPassword` returned SUCCESS, and with the error message alone otherwise. -/
theorem SetPassword_never_nonfatal (K : Keychain σ) (st : σ)
    (service account password error : String) :
    (SetPassword K st service account password error).result ≠ FAIL_NONFATAL ∧
    ((SetPassword K st service account password error).result = SUCCESS ∨
      (SetPassword K st service account password error).result = FAIL_ERROR) ∧
    ((SetPassword K st service account password error).result = SUCCESS →
      (K.SecKeychainAddInternetPassword st service account password).1 = errSecSuccess ∨
      ((K.SecKeychainAddInternetPassword st service account password).1 = errSecDuplicateItem ∧
        (K.SecKeychainAddInternetPassword
          (DeletePassword K (AddPassword K st service account password error true).state
            service account error).state
          service account password).1 = errSecSuccess)) ∧
    (callbackCalls (Task.run K st
        (Task.setPassword (SetPasswordWorker.create service account password))).1 = [[]] ↔
      (SetPassword K st service account password "").result = SUCCESS) ∧
    ((SetPassword K st service account password "").result = FAIL_ERROR →
      callbackCalls (Task.run K st
          (Task.setPassword (SetPasswordWorker.create service account password))).1
        = [[JSValue.error (SetPassword K st service account password "").error]]) := by
  have hnn := SetPassword_ne_nonfatal K st service account password error
  refine ⟨hnn, ?_, ?_, ?_, ?_⟩
  · cases hr : (SetPassword K st service account password error).result
    · exact Or.inl rfl
    · exact Or.inr rfl
    · exact absurd hr hnn
  · intro h
    rcases SetPassword_cases K st service account password error
      with ⟨_, h2⟩ | ⟨_, h2, h3⟩ | ⟨h1, _, h3⟩
    · rw [h2] at h
      exact Or.inl ((AddPassword_success_iff K st service account password error true).1 h)
    · rw [h3, h2] at h
      exact absurd h (by decide)
    · have he : (AddPassword K st service account password error true).error = error :=
        (AddPassword_error K st service account password error true).2 (by rw [h1]; decide)
      rw [he] at h3
      rw [h3] at h
      exact Or.inr ⟨((AddPassword_nonfatal_iff K st service account password error true).1 h1).1,
        (AddPassword_success_iff K _ service account password _ false).1 h⟩
  · have hn0 := SetPassword_ne_nonfatal K st service account password ""
    simp only [Task.run, SetPasswordWorker.Execute, SetPasswordWorker.create]
    cases hr : (SetPassword K st service account password "").result
    · simp [WorkComplete, defaultHandleOKCallback, callbackCalls]
    · simp [WorkComplete, HandleErrorCallback, callbackCalls]
    · exact absurd hr hn0
  · intro hr
    have hc : cstr (SetPassword K st service account password "").error
        = (SetPassword K st service account password "").error := by
      obtain ⟨status, _, hs⟩ := SetPassword_error_status K st service account password "" hr
      rw [hs]
      exact cstr_errorStatusToString K status
    simp [Task.run, SetPasswordWorker.Execute, SetPasswordWorker.create, hr, WorkComplete,
      HandleErrorCallback, callbackCalls, hc]

end keytar
